import Mathlib

/-!
Shallow embedding of `sync_issues.py`: a script that copies open issues from
an upstream repository into a fork, prefixing titles with a marker string and
skipping source issues whose raw title already appears among the fork's
issues carrying the marker label.
-/

/-- The marker string, `LABEL_PREFIX = "[Upstream]"` in the source. -/
def marker : String := "[Upstream]"

/-- A source (upstream) issue: `issue.title`, `issue.body` (nullable in the
GitHub API, hence `Option`), `issue.html_url`. -/
structure SourceIssue where
  title : String
  body : Option String
  html_url : String
deriving DecidableEq, Repr

/-- A destination (fork) issue as stored in the fork repository:
title, state (`"open"`/`"closed"`) and its list of label names. -/
structure DestIssue where
  title : String
  state : String
  labels : List String
deriving DecidableEq, Repr

/-- The payload of a `fork.create_issue(title=..., body=..., labels=...)`
call. -/
structure CreateIssueRequest where
  title : String
  body : String
  labels : List String
deriving DecidableEq, Repr

/-- The state of the destination (fork) repository: its list of issues. -/
structure DestState where
  issues : List DestIssue
deriving DecidableEq, Repr

/-- Collaborator semantics of `repo.get_issues(state=st, labels=ls)`:
issues whose state matches (`"all"` matches every state) and that carry
every requested label. -/
def getIssues (d : DestState) (st : String) (ls : List String) : List DestIssue :=
  d.issues.filter (fun i =>
    (st == "all" || i.state == st) && ls.all (fun l => i.labels.contains l))

/-- The pool the duplicate check scans:
`fork.get_issues(state="all", labels=[LABEL_PREFIX])`. -/
def tagged (d : DestState) : List DestIssue :=
  getIssues d "all" [marker]

/-- The duplicate check `any(i.title == issue.title for i in existing)`:
it compares existing tagged titles against the *raw* source title. -/
def anyMatch (d : DestState) (s : SourceIssue) : Bool :=
  (tagged d).any (fun i => i.title == s.title)

/-- Python string interpolation of a nullable value: `None` prints as the
literal text `"None"`. -/
def pyStr : Option String → String
  | none => "None"
  | some s => s

/-- `labels_to_apply`: `["triage"]` when `"triage"` is among the fork's
available label names, else `[]`. -/
def labelsToApply (avail : List String) : List String :=
  if avail.contains "triage" then ["triage"] else []

/-- The creation request the loop body emits for a source issue:
title `f"{LABEL_PREFIX} {issue.title}"`,
body `f"**Original Issue:** {issue.html_url}\n\n{issue.body}"`. -/
def mkRequest (avail : List String) (s : SourceIssue) : CreateIssueRequest :=
  { title := marker ++ " " ++ s.title
  , body := "**Original Issue:** " ++ s.html_url ++ "\n\n" ++ pyStr s.body
  , labels := labelsToApply avail }

/-- Collaborator semantics of `create_issue`: the new issue is appended to
the fork, open, with exactly the requested labels. -/
def createIssue (d : DestState) (r : CreateIssueRequest) : DestState :=
  { issues := d.issues ++ [{ title := r.title, state := "open", labels := r.labels }] }

/-- One remote API call made by the loop, recorded in order of completion:
a `fork.get_issues` read, a `fork.get_labels` read, or a
`fork.create_issue` write carrying its payload. -/
inductive Event where
  | readIssues
  | readLabels
  | create (r : CreateIssueRequest)
deriving DecidableEq, Repr

def Event.isReadIssues : Event → Bool
  | .readIssues => true
  | _ => false

def Event.isReadLabels : Event → Bool
  | .readLabels => true
  | _ => false

/-- The creation requests appearing in a trace, in order. -/
def creates : List Event → List CreateIssueRequest
  | [] => []
  | Event.create r :: es => r :: creates es
  | Event.readIssues :: es => creates es
  | Event.readLabels :: es => creates es

/-- The sync loop of `sync_issues.py`: for each source issue, re-read the
tagged pool (`get_issues`); if any tagged title equals the raw source title,
skip; otherwise read the label set (`get_labels`) and create the prefixed
issue. Returns the final fork state and the trace of API calls. -/
def sync (avail : List String) : DestState → List SourceIssue → DestState × List Event
  | d, [] => (d, [])
  | d, s :: rest =>
    if anyMatch d s then
      let p := sync avail d rest
      (p.1, Event.readIssues :: p.2)
    else
      let req := mkRequest avail s
      let p := sync avail (createIssue d req) rest
      (p.1, Event.readIssues :: Event.readLabels :: Event.create req :: p.2)

/-- Fault-injection semantics of the same loop: the first `k` API calls
succeed and call number `k` (0-based) raises `err`. The script has no
`try`/`except`, so execution stops at the failing call and the error
propagates; the trace records the calls completed before the fault. -/
def syncE {ε : Type} (avail : List String) (err : ε) :
    DestState → List SourceIssue → Nat → List Event × Except ε DestState
  | d, [], _ => ([], Except.ok d)
  | _, _ :: _, 0 => ([], Except.error err)
  | d, s :: rest, Nat.succ k =>
    if anyMatch d s then
      let p := syncE avail err d rest k
      (Event.readIssues :: p.1, p.2)
    else
      match k with
      | 0 => ([Event.readIssues], Except.error err)
      | 1 => ([Event.readIssues, Event.readLabels], Except.error err)
      | Nat.succ (Nat.succ k2) =>
        let req := mkRequest avail s
        let p := syncE avail err (createIssue d req) rest k2
        (Event.readIssues :: Event.readLabels :: Event.create req :: p.1, p.2)

/-- A destination title a source title is checked against: the predicate
used in the premises of the never-match claim — whether a title starts with
the marker followed by a space. -/
def mStarts (t : String) : Bool :=
  ("[Upstream] ").data.isPrefixOf t.data

lemma string_append_cancel (p a b : String) (h : p ++ a = p ++ b) : a = b := by
  have hd : (p ++ a).data = (p ++ b).data := congrArg String.data h
  rw [String.data_append, String.data_append] at hd
  exact String.ext (List.append_cancel_left hd)

lemma labelsToApply_no_marker (avail : List String) :
    (labelsToApply avail).contains marker = false := by
  unfold labelsToApply
  split <;> decide

/-- Creating an issue whose labels do not include the marker label leaves
the tagged pool unchanged. -/
lemma tagged_createIssue (d : DestState) (r : CreateIssueRequest)
    (h : r.labels.contains marker = false) :
    tagged (createIssue d r) = tagged d := by
  simp only [tagged, getIssues, createIssue, List.filter_append]
  simp only [List.filter_cons, List.filter_nil]
  simpa using h

lemma anyMatch_createIssue (d : DestState) (r : CreateIssueRequest)
    (h : r.labels.contains marker = false) (s : SourceIssue) :
    anyMatch (createIssue d r) s = anyMatch d s := by
  unfold anyMatch
  rw [tagged_createIssue d r h]

/-- The fork state only ever grows by issues without the marker label, so
the tagged pool after a run equals the tagged pool before it. -/
lemma tagged_sync (avail : List String) (d : DestState) (srcs : List SourceIssue) :
    tagged (sync avail d srcs).1 = tagged d := by
  induction srcs generalizing d with
  | nil => rfl
  | cons s rest ih =>
    by_cases h : anyMatch d s
    · simp only [sync, h, if_true]
      exact ih d
    · simp only [sync, h, if_false, Bool.false_eq_true]
      rw [ih (createIssue d (mkRequest avail s))]
      exact tagged_createIssue d (mkRequest avail s) (labelsToApply_no_marker avail)

/-- Master characterization of the emitted creation requests: one request,
in source order, for exactly the source issues whose raw title matches no
tagged title of the initial fork state. -/
lemma creates_sync (avail : List String) (d : DestState) (srcs : List SourceIssue) :
    creates (sync avail d srcs).2 =
      (srcs.filter (fun s => !anyMatch d s)).map (mkRequest avail) := by
  induction srcs generalizing d with
  | nil => rfl
  | cons s rest ih =>
    by_cases h : anyMatch d s
    · simp only [sync, h, if_true, List.filter_cons, Bool.not_true, creates]
      exact ih d
    · simp only [sync, h, if_false, Bool.false_eq_true, List.filter_cons, Bool.not_false,
        creates, List.map_cons]
      rw [ih (createIssue d (mkRequest avail s))]
      have hf : List.filter (fun s1 => !anyMatch (createIssue d (mkRequest avail s)) s1) rest
          = List.filter (fun s1 => !anyMatch d s1) rest :=
        List.filter_congr (fun x _ => by
          rw [anyMatch_createIssue d (mkRequest avail s) (labelsToApply_no_marker avail) x])
      rw [hf]
      simp

/-- The loop performs one `get_issues` read per source issue. -/
lemma countP_readIssues_sync (avail : List String) (d : DestState)
    (srcs : List SourceIssue) :
    (sync avail d srcs).2.countP Event.isReadIssues = srcs.length := by
  induction srcs generalizing d with
  | nil => rfl
  | cons s rest ih =>
    by_cases h : anyMatch d s
    · simp [sync, h, List.countP_cons, Event.isReadIssues, ih d]
    · simp [sync, h, List.countP_cons, Event.isReadIssues,
        ih (createIssue d (mkRequest avail s))]

/-- The loop performs one `get_labels` read per emitted creation request
(none on the skip path). -/
lemma countP_readLabels_sync (avail : List String) (d : DestState)
    (srcs : List SourceIssue) :
    (sync avail d srcs).2.countP Event.isReadLabels
      = (creates (sync avail d srcs).2).length := by
  induction srcs generalizing d with
  | nil => rfl
  | cons s rest ih =>
    by_cases h : anyMatch d s
    · simp [sync, h, List.countP_cons, Event.isReadLabels, creates, ih d]
    · simp [sync, h, List.countP_cons, Event.isReadLabels, creates,
        ih (createIssue d (mkRequest avail s))]

/-- The faulty run equals the fault-free run truncated at the failing call:
call number `k` raises, the error is returned unchanged, and the trace is
the first `k` events of the fault-free trace (when the fault-free run makes
more than `k` calls; otherwise the run completes as fault-free). -/
lemma syncE_spec {ε : Type} (avail : List String) (err : ε) (d : DestState)
    (srcs : List SourceIssue) (k : Nat) :
    syncE avail err d srcs k =
      if k < (sync avail d srcs).2.length
      then ((sync avail d srcs).2.take k, Except.error err)
      else ((sync avail d srcs).2, Except.ok (sync avail d srcs).1) := by
  induction srcs generalizing d k with
  | nil => simp [syncE, sync]
  | cons s rest ih =>
    by_cases h : anyMatch d s
    · match k with
      | 0 => simp [syncE, sync, h]
      | Nat.succ k1 =>
        simp only [syncE, sync, h, if_true, List.length_cons, List.take_succ_cons,
          Nat.succ_lt_succ_iff, ih d k1]
        by_cases hk : k1 < (sync avail d rest).2.length <;> simp [hk]
    · match k with
      | 0 => simp [syncE, sync, h]
      | 1 => simp [syncE, sync, h]
      | 2 => simp [syncE, sync, h]
      | Nat.succ (Nat.succ (Nat.succ k3)) =>
        simp only [syncE, sync, h, if_false, Bool.false_eq_true, List.length_cons,
          List.take_succ_cons, Nat.succ_lt_succ_iff,
          ih (createIssue d (mkRequest avail s)) k3]
        by_cases hk : k3 < (sync avail (createIssue d (mkRequest avail s)) rest).2.length <;>
          simp [hk]

/-- If the raw title `t` has no tagged match initially, the number of
creation requests carrying the prefixed title built from `t` equals the
number of source issues titled `t`. -/
lemma countP_creates_title (avail : List String) (d : DestState)
    (srcs : List SourceIssue) (t : String)
    (hm : (tagged d).any (fun i => i.title == t) = false) :
    (creates (sync avail d srcs).2).countP (fun r => r.title == marker ++ " " ++ t)
      = srcs.countP (fun s => s.title == t) := by
  rw [creates_sync, List.countP_map]
  have hpt : ∀ s : SourceIssue,
      (((fun r : CreateIssueRequest => r.title == marker ++ " " ++ t) ∘ mkRequest avail) s)
        = (s.title == t) := by
    intro s
    simp only [Function.comp, mkRequest]
    by_cases h : s.title = t
    · simp [h]
    · have hne : marker ++ " " ++ s.title ≠ marker ++ " " ++ t :=
        fun hc => h (string_append_cancel " " _ _ (string_append_cancel marker _ _ hc))
      simp [h, hne]
  have h1 : (srcs.filter (fun s => !anyMatch d s)).countP
      ((fun r : CreateIssueRequest => r.title == marker ++ " " ++ t) ∘ mkRequest avail)
      = (srcs.filter (fun s => !anyMatch d s)).countP (fun s => s.title == t) :=
    List.countP_congr (fun s _ => by rw [hpt s])
  rw [h1, List.countP_filter]
  refine List.countP_congr ?_
  intro s _
  by_cases h : s.title = t
  · have : anyMatch d s = false := by
      unfold anyMatch
      rw [h]
      exact hm
    simp [h, this]
  · simp [beq_eq_false_iff_ne.mpr h]

/-- C1: when every existing tagged destination title begins with
`"[Upstream] "` and no source title does, the duplicate check never finds a
match, so a creation request is emitted for every source issue — and again
for every source issue on a second run over the resulting state (duplicates
are recreated). -/
theorem C1_duplicates_recreated_every_run (avail : List String) (d : DestState)
    (srcs : List SourceIssue)
    (h1 : ∀ i ∈ tagged d, mStarts i.title = true)
    (h2 : ∀ s ∈ srcs, mStarts s.title = false) :
    creates (sync avail d srcs).2 = srcs.map (mkRequest avail) ∧
    creates (sync avail (sync avail d srcs).1 srcs).2 = srcs.map (mkRequest avail) := by
  have key : ∀ d' : DestState, tagged d' = tagged d →
      creates (sync avail d' srcs).2 = srcs.map (mkRequest avail) := by
    intro d' hd
    rw [creates_sync]
    have hfilter : srcs.filter (fun s => !anyMatch d' s) = srcs := by
      refine List.filter_eq_self.mpr ?_
      intro s hs
      have hfalse : anyMatch d' s = false := by
        by_contra hne
        have htrue : anyMatch d' s = true := by
          cases hcase : anyMatch d' s
          · exact absurd hcase hne
          · rfl
        unfold anyMatch at htrue
        rw [hd] at htrue
        obtain ⟨i, hi, hb⟩ := List.any_eq_true.mp htrue
        have : i.title = s.title := eq_of_beq hb
        have hms : mStarts s.title = true := this ▸ h1 i hi
        rw [h2 s hs] at hms
        exact Bool.false_ne_true hms
      rw [hfalse]
      rfl
    rw [hfilter]
  exact ⟨key d rfl, key (sync avail d srcs).1 (tagged_sync avail d srcs)⟩

/-- Witness for C1 at a concrete input: one tagged destination issue from a
previous run (title `"[Upstream] Bug A"`), one source issue `"Bug A"`: the
request is emitted on the first run and again on the second. -/
theorem C1_witness :
    creates (sync ["triage"] ⟨[⟨"[Upstream] Bug A", "open", ["[Upstream]"]⟩]⟩
        [⟨"Bug A", some "b", "u"⟩]).2
      = [⟨"Bug A", some "b", "u"⟩].map (mkRequest ["triage"]) ∧
    creates (sync ["triage"]
        (sync ["triage"] ⟨[⟨"[Upstream] Bug A", "open", ["[Upstream]"]⟩]⟩
          [⟨"Bug A", some "b", "u"⟩]).1
        [⟨"Bug A", some "b", "u"⟩]).2
      = [⟨"Bug A", some "b", "u"⟩].map (mkRequest ["triage"]) :=
  C1_duplicates_recreated_every_run ["triage"]
    ⟨[⟨"[Upstream] Bug A", "open", ["[Upstream]"]⟩]⟩
    [⟨"Bug A", some "b", "u"⟩] (by decide) (by decide)

/-- C2: a source issue whose raw title equals the title of some existing
tagged destination issue is skipped — no creation request carrying its
prefixed title is ever emitted during the run. -/
theorem C2_matching_title_skipped (avail : List String) (d : DestState)
    (srcs : List SourceIssue) (s : SourceIssue) (_hs : s ∈ srcs)
    (i : DestIssue) (hi : i ∈ tagged d) (ht : i.title = s.title) :
    ∀ r ∈ creates (sync avail d srcs).2, r.title ≠ marker ++ " " ++ s.title := by
  intro r hr heq
  rw [creates_sync] at hr
  obtain ⟨s1, hs1, rfl⟩ := List.mem_map.mp hr
  obtain ⟨_, hnomatch⟩ := List.mem_filter.mp hs1
  have htit : s1.title = s.title :=
    string_append_cancel " " _ _ (string_append_cancel marker _ _ heq)
  have : anyMatch d s1 = true := by
    unfold anyMatch
    refine List.any_eq_true.mpr ⟨i, hi, ?_⟩
    rw [htit]
    exact beq_iff_eq.mpr ht
  rw [this] at hnomatch
  exact Bool.false_ne_true hnomatch

/-- Witness for C2 at a concrete input: destination already holds a tagged
issue titled `"Bug A"`; the run over sources `"Bug A"`, `"Bug B"` emits only
the `"Bug B"` request, whose title differs from the prefixed `"Bug A"`. -/
theorem C2_witness :
    ({ title := "[Upstream] Bug B", body := "**Original Issue:** uB\n\nb"
     , labels := ["triage"] } : CreateIssueRequest).title
      ≠ marker ++ " " ++ "Bug A" :=
  C2_matching_title_skipped ["triage"] ⟨[⟨"Bug A", "open", ["[Upstream]"]⟩]⟩
    [⟨"Bug A", some "a", "uA"⟩, ⟨"Bug B", some "b", "uB"⟩]
    ⟨"Bug A", some "a", "uA"⟩ (by decide)
    ⟨"Bug A", "open", ["[Upstream]"]⟩ (by decide) rfl
    { title := "[Upstream] Bug B", body := "**Original Issue:** uB\n\nb"
    , labels := ["triage"] } (by decide)

/-- C3: the emitted creation requests are exactly one per source issue whose
raw title matches no tagged destination title, in order, with title
`marker ++ " " ++ source title` and body
`"**Original Issue:** " ++ url ++ "\n\n" ++ body`. -/
theorem C3_unmatched_source_creates_one_request (avail : List String)
    (d : DestState) (srcs : List SourceIssue) :
    creates (sync avail d srcs).2 =
      (srcs.filter (fun s => !anyMatch d s)).map (fun s =>
        { title := marker ++ " " ++ s.title
        , body := "**Original Issue:** " ++ s.html_url ++ "\n\n" ++ pyStr s.body
        , labels := labelsToApply avail }) :=
  creates_sync avail d srcs

/-- C4: every emitted creation request carries exactly `["triage"]` when
`"triage"` is among the destination's available labels, and exactly `[]`
otherwise. -/
theorem C4_labels_triage_iff_available (avail : List String) (d : DestState)
    (srcs : List SourceIssue) (r : CreateIssueRequest)
    (hr : r ∈ creates (sync avail d srcs).2) :
    r.labels = if avail.contains "triage" then ["triage"] else [] := by
  rw [creates_sync] at hr
  obtain ⟨s1, _, rfl⟩ := List.mem_map.mp hr
  rfl

/-- Witness for C4 at a concrete input: with `"triage"` among the available
labels, the emitted request's labels are `["triage"]`. -/
theorem C4_witness :
    ({ title := "[Upstream] Bug A", body := "**Original Issue:** uA\n\na"
     , labels := ["triage"] } : CreateIssueRequest).labels
      = if (["triage", "bug"] : List String).contains "triage" then ["triage"] else [] :=
  C4_labels_triage_iff_available ["triage", "bug"] ⟨[]⟩
    [⟨"Bug A", some "a", "uA"⟩]
    { title := "[Upstream] Bug A", body := "**Original Issue:** uA\n\na"
    , labels := ["triage"] } (by decide)

/-- C5 as stated is false: on the skip path the loop performs no
`get_labels` read, so the label-set read is not repeated once per source
issue. Concrete run: one source issue that is skipped — zero `get_labels`
reads, not one. -/
theorem C5_counterexample :
    ¬ ((sync ["triage"] ⟨[⟨"Bug A", "open", ["[Upstream]"]⟩]⟩
        [⟨"Bug A", none, "u"⟩]).2.countP Event.isReadLabels
      = ([⟨"Bug A", none, "u"⟩] : List SourceIssue).length) := by
  decide

/-- C5 amended: the `get_issues` read is performed once per source issue;
the `get_labels` read is performed once per emitted creation request (the
non-skipped source issues), not once per source issue. -/
theorem C5_read_counts (avail : List String) (d : DestState)
    (srcs : List SourceIssue) :
    (sync avail d srcs).2.countP Event.isReadIssues = srcs.length ∧
    (sync avail d srcs).2.countP Event.isReadLabels
      = (creates (sync avail d srcs).2).length :=
  ⟨countP_readIssues_sync avail d srcs, countP_readLabels_sync avail d srcs⟩

/-- C6: when API call number `k` raises an error, the error is returned
unchanged and the run's trace is exactly the first `k` calls of the
fault-free run — nothing, in particular no creation request, follows the
fault. -/
theorem C6_fault_propagates_unchanged {ε : Type} (avail : List String)
    (err : ε) (d : DestState) (srcs : List SourceIssue) (k : Nat)
    (hk : k < (sync avail d srcs).2.length) :
    syncE avail err d srcs k = ((sync avail d srcs).2.take k, Except.error err) := by
  rw [syncE_spec, if_pos hk]

/-- Witness for C6 at a concrete input: the second API call (the
`get_labels` read) fails; the trace holds only the completed `get_issues`
read and the error comes back unchanged. -/
theorem C6_witness :
    syncE ["triage"] "boom" (⟨[]⟩ : DestState) [⟨"Bug A", some "a", "uA"⟩] 1
      = ((sync ["triage"] (⟨[]⟩ : DestState) [⟨"Bug A", some "a", "uA"⟩]).2.take 1,
         Except.error "boom") :=
  C6_fault_propagates_unchanged ["triage"] "boom" ⟨[]⟩
    [⟨"Bug A", some "a", "uA"⟩] 1 (by decide)

/-- C7: the concrete scenario — sources `"Bug A"`, `"Bug B"`, empty tagged
pool, labels `["triage", "bug"]` — emits exactly two creation requests, in
order, titled `"[Upstream] Bug A"` and `"[Upstream] Bug B"`, each with
labels `["triage"]`. -/
theorem C7_scenario_two_requests :
    creates (sync ["triage", "bug"] ⟨[]⟩
        [⟨"Bug A", some "a", "uA"⟩, ⟨"Bug B", some "b", "uB"⟩]).2
      = [⟨"[Upstream] Bug A", "**Original Issue:** uA\n\na", ["triage"]⟩,
         ⟨"[Upstream] Bug B", "**Original Issue:** uB\n\nb", ["triage"]⟩] := by
  decide

/-- C8: a source issue with a null body yields a request whose body ends in
the literal text `"None"` after the blank line, not in the empty string. -/
theorem C8_none_body_literal (avail : List String) (d : DestState)
    (srcs : List SourceIssue) (s : SourceIssue) (hs : s ∈ srcs)
    (hb : s.body = none) (hm : anyMatch d s = false) :
    mkRequest avail s ∈ creates (sync avail d srcs).2 ∧
    (mkRequest avail s).body = "**Original Issue:** " ++ s.html_url ++ "\n\nNone" := by
  constructor
  · rw [creates_sync]
    refine List.mem_map_of_mem _ (List.mem_filter.mpr ⟨hs, ?_⟩)
    rw [hm]
    rfl
  · have h2 : ∀ u : String, u ++ "\n\n" ++ "None" = u ++ "\n\nNone" := by
      intro u
      rw [String.append_assoc]
      rw [show ("\n\n" : String) ++ "None" = "\n\nNone" from by decide]
    simp only [mkRequest, hb, pyStr]
    exact h2 ("**Original Issue:** " ++ s.html_url)

/-- Witness for C8 at a concrete input: a body-less source issue produces a
request whose body text ends with `"None"`. -/
theorem C8_witness :
    mkRequest ["triage"] ⟨"Bug A", none, "uA"⟩
        ∈ creates (sync ["triage"] ⟨[]⟩ [⟨"Bug A", none, "uA"⟩]).2 ∧
    (mkRequest ["triage"] ⟨"Bug A", none, "uA"⟩).body
      = "**Original Issue:** " ++ "uA" ++ "\n\nNone" :=
  C8_none_body_literal ["triage"] ⟨[]⟩ [⟨"Bug A", none, "uA"⟩]
    ⟨"Bug A", none, "uA"⟩ (by decide) rfl (by decide)

/-- C9: the tagged pool is read with `state="all"`, so a *closed* tagged
destination issue with a matching title also suppresses creation: no
request carrying the prefixed form of its title is emitted. -/
theorem C9_closed_tagged_issue_suppresses (avail : List String) (d : DestState)
    (srcs : List SourceIssue) (i : DestIssue) (hi : i ∈ d.issues)
    (hlab : i.labels.contains marker = true) (_hst : i.state = "closed") :
    ∀ r ∈ creates (sync avail d srcs).2, r.title ≠ marker ++ " " ++ i.title := by
  intro r hr heq
  rw [creates_sync] at hr
  obtain ⟨s1, hs1, rfl⟩ := List.mem_map.mp hr
  obtain ⟨_, hnomatch⟩ := List.mem_filter.mp hs1
  have hmem : i ∈ tagged d := by
    unfold tagged getIssues
    refine List.mem_filter.mpr ⟨hi, ?_⟩
    simpa using hlab
  have htit : s1.title = i.title :=
    string_append_cancel " " _ _ (string_append_cancel marker _ _ heq)
  have hany : anyMatch d s1 = true := by
    unfold anyMatch
    refine List.any_eq_true.mpr ⟨i, hmem, ?_⟩
    exact beq_iff_eq.mpr htit.symm
  rw [hany] at hnomatch
  exact Bool.false_ne_true hnomatch

/-- Witness for C9 at a concrete input: a closed tagged issue titled
`"Done"` suppresses the same-titled source issue; the sole emitted request
(for `"New"`) does not carry the prefixed `"Done"` title. -/
theorem C9_witness :
    ({ title := "[Upstream] New", body := "**Original Issue:** uN\n\ny"
     , labels := [] } : CreateIssueRequest).title
      ≠ marker ++ " " ++ "Done" :=
  C9_closed_tagged_issue_suppresses [] ⟨[⟨"Done", "closed", ["[Upstream]"]⟩]⟩
    [⟨"Done", some "x", "uD"⟩, ⟨"New", some "y", "uN"⟩]
    ⟨"Done", "closed", ["[Upstream]"]⟩ (by decide) (by decide) rfl
    { title := "[Upstream] New", body := "**Original Issue:** uN\n\ny"
    , labels := [] } (by decide)

/-- C10: two source issues sharing a title with no tagged match produce two
creation requests with the identical prefixed title — requests created
earlier in the run never suppress later same-title source issues. -/
theorem C10_same_title_sources_both_created (avail : List String)
    (d : DestState) (srcs : List SourceIssue) (t : String)
    (hm : (tagged d).any (fun i => i.title == t) = false)
    (h2 : srcs.countP (fun s => s.title == t) = 2) :
    (creates (sync avail d srcs).2).countP
      (fun r => r.title == marker ++ " " ++ t) = 2 := by
  rw [countP_creates_title avail d srcs t hm, h2]

/-- Witness for C10 at a concrete input: two sources titled `"Dup"` and an
empty destination give two requests titled `"[Upstream] Dup"`. -/
theorem C10_witness :
    (creates (sync ["triage"] ⟨[]⟩
        [⟨"Dup", some "x", "u1"⟩, ⟨"Dup", some "y", "u2"⟩]).2).countP
      (fun r => r.title == marker ++ " " ++ "Dup") = 2 :=
  C10_same_title_sources_both_created ["triage"] ⟨[]⟩
    [⟨"Dup", some "x", "u1"⟩, ⟨"Dup", some "y", "u2"⟩] "Dup"
    (by decide) (by decide)
